import Mathlib

/-!
Shallow embedding of the nodejs-debug-mcp repository.

The embedding covers:
* the value normalizer `evaluateExpression` (src/breakpoint-session.ts, lines 346-419);
* the breakpoint evaluation session state machine `SessionStateMachine`,
  `SessionListenerManager` and the `BreakpointEvaluationSession` event handlers
  (src/breakpoint-session.ts, lines 62-343);
* the port extraction `extractPort` and the `cleanup` routine of the tool entry
  point (src/debug-tool.ts).

Machine-level concerns that the code leaves to the JavaScript runtime
(event-loop scheduling, real time, IEEE floats) are modelled as explicit
environmental parameters: every handler takes the data the runtime would hand
it, and asynchronous remote calls take their outcome as a parameter.
-/

namespace DebugMcp

/-- JSON-compatible runtime values. JavaScript `undefined` is represented by
`Option.none` at use sites, mirroring the `unknown`-typed `value` fields of the
source, where `undefined` marks an absent value. Numbers are modelled as
integers; fractional floating-point values are outside the model. -/
inductive JsValue where
  | null : JsValue
  | bool (b : Bool) : JsValue
  | num (n : Int) : JsValue
  | str (s : String) : JsValue
  | arr (elems : List JsValue) : JsValue
  | obj (fields : List (String × JsValue)) : JsValue

/-- JavaScript `typeof` on a possibly-undefined value (`typeof undefined` is
the string undefined, `typeof null` is the string object, arrays are plain
objects for `typeof`). -/
def typeofJs : Option JsValue → String
  | none => "undefined"
  | some JsValue.null => "object"
  | some (JsValue.bool _) => "boolean"
  | some (JsValue.num _) => "number"
  | some (JsValue.str _) => "string"
  | some (JsValue.arr _) => "object"
  | some (JsValue.obj _) => "object"

/-- JavaScript `Array.isArray` on a possibly-undefined value. -/
def isArrayJs : Option JsValue → Bool
  | some (JsValue.arr _) => true
  | _ => false

/-- JavaScript `value === null` on a possibly-undefined value. -/
def isNullJs : Option JsValue → Bool
  | some JsValue.null => true
  | _ => false

/-- Whitespace skipping for the JSON reader. -/
def skipWs : List Char → List Char
  | [] => []
  | c :: rest =>
    if c = ' ' ∨ c = '\t' ∨ c = '\n' ∨ c = '\r' then skipWs rest else c :: rest

/-- Reads the body of a JSON string literal up to the closing quote, handling
the single-character escapes. Unicode escapes are outside the model. -/
def parseStringBody : List Char → Option (List Char × List Char)
  | [] => none
  | c :: rest =>
    if c = '"' then some ([], rest)
    else if c = '\\' then
      match rest with
      | [] => none
      | e :: rest2 =>
        let ec := if e = 'n' then '\n' else if e = 't' then '\t'
          else if e = 'r' then '\r' else e
        match parseStringBody rest2 with
        | some (s, r) => some (ec :: s, r)
        | none => none
    else
      match parseStringBody rest with
      | some (s, r) => some (c :: s, r)
      | none => none

/-- Digit run to a natural number, most significant first. -/
def digitsToNat (ds : List Char) : Nat :=
  ds.foldl (fun acc c => acc * 10 + (c.toNat - 48)) 0

mutual

/-- Fuel-bounded JSON value reader: the executable stand-in for the
`JSON.parse` builtin used by the serialization fallback. Integer numerals,
strings, booleans, null, arrays and objects are supported. -/
def parseVal : Nat → List Char → Option (JsValue × List Char)
  | 0, _ => none
  | _ + 1, [] => none
  | fuel + 1, c :: rest =>
    let l := c :: rest
    if ("null".toList).isPrefixOf l then some (JsValue.null, l.drop 4)
    else if ("true".toList).isPrefixOf l then some (JsValue.bool true, l.drop 4)
    else if ("false".toList).isPrefixOf l then some (JsValue.bool false, l.drop 5)
    else if c = '"' then
      match parseStringBody rest with
      | some (s, r) => some (JsValue.str (String.mk s), r)
      | none => none
    else if c = '[' then
      match skipWs rest with
      | ']' :: r => some (JsValue.arr [], r)
      | r => match parseElems fuel r with
        | some (es, r2) => some (JsValue.arr es, r2)
        | none => none
    else if c = '{' then
      match skipWs rest with
      | '}' :: r => some (JsValue.obj [], r)
      | r => match parseFields fuel r with
        | some (fs, r2) => some (JsValue.obj fs, r2)
        | none => none
    else if c = '-' then
      match rest.takeWhile Char.isDigit with
      | [] => none
      | ds => some (JsValue.num (-(digitsToNat ds : Int)), rest.drop ds.length)
    else if c.isDigit then
      let ds := l.takeWhile Char.isDigit
      some (JsValue.num (digitsToNat ds : Int), l.drop ds.length)
    else none

/-- Comma-separated array elements up to the closing bracket. -/
def parseElems : Nat → List Char → Option (List JsValue × List Char)
  | 0, _ => none
  | fuel + 1, l =>
    match parseVal fuel (skipWs l) with
    | none => none
    | some (v, r) =>
      match skipWs r with
      | ',' :: r2 =>
        match parseElems fuel r2 with
        | some (vs, r3) => some (v :: vs, r3)
        | none => none
      | ']' :: r2 => some ([v], r2)
      | _ => none

/-- Comma-separated object fields up to the closing brace. -/
def parseFields : Nat → List Char → Option (List (String × JsValue) × List Char)
  | 0, _ => none
  | fuel + 1, l =>
    match skipWs l with
    | '"' :: r =>
      (match parseStringBody r with
      | none => none
      | some (k, r2) =>
        match skipWs r2 with
        | ':' :: r3 =>
          match parseVal fuel (skipWs r3) with
          | none => none
          | some (v, r4) =>
            match skipWs r4 with
            | ',' :: r5 =>
              match parseFields fuel r5 with
              | some (fs, r6) => some ((String.mk k, v) :: fs, r6)
              | none => none
            | '}' :: r5 => some ([(String.mk k, v)], r5)
            | _ => none
        | _ => none)
    | _ => none

end

/-- JavaScript `JSON.parse`, returning `none` where the builtin would throw. -/
def jsonParse (s : String) : Option JsValue :=
  match parseVal (s.length + 1) (skipWs s.toList) with
  | some (v, r) => if skipWs r = [] then some v else none
  | none => none

/-- One remote object as reported by `Debugger.evaluateOnCallFrame`:
`rawResult.result` in the source. Absent protocol fields are `none`. -/
structure RemoteObject where
  type : Option String := none
  subtype : Option String := none
  value : Option JsValue := none
  objectId : Option String := none
  description : Option String := none

/-- One full response of `Debugger.evaluateOnCallFrame`: the remote object
plus whether `exceptionDetails` was present. -/
structure EvalReturn where
  result : RemoteObject := {}
  exceptionDetails : Bool := false

/-- The result shape produced by the value normalizer: `EvaluationResult` of
src/types.ts restricted to the fields the normalizer writes. -/
structure EvaluationResult where
  type : String
  value : Option JsValue

/-- The pre-serialization adjustment of `evaluateExpression`
(src/breakpoint-session.ts lines 358-374): the preliminary type after the
null/array subtype overrides and the value after the `value ??= null` and
description fallbacks. Returns the pair (type, value). -/
def directAdjust (raw : EvalReturn) : String × Option JsValue :=
  let type0 := raw.result.type.getD "undefined"
  let value0 := raw.result.value
  let hasObjectId := raw.result.objectId.isSome
  if raw.exceptionDetails then (type0, value0)
  else
    let tv :=
      if raw.result.subtype = some "null" then
        ("null", if value0.isSome then value0 else some JsValue.null)
      else if raw.result.subtype = some "array" then ("array", value0)
      else (type0, value0)
    if tv.2.isNone ∧ raw.result.description.isSome ∧ ¬hasObjectId then
      (tv.1, raw.result.description.map JsValue.str)
    else tv

/-- The value normalizer `evaluateExpression`
(src/breakpoint-session.ts lines 346-419). The outcome of the remote
serialization re-evaluation (the guarded `JSON.stringify` wrapper call) is an
environmental parameter `strf`; it is consulted only when the code would issue
that second call. The returned boolean reports whether the second remote call
was issued (`needsSerialization`). -/
def evaluateExpression (raw : EvalReturn) (strf : EvalReturn) :
    EvaluationResult × Bool :=
  let tv := directAdjust raw
  let type1 := tv.1
  let value1 := tv.2
  let hasObjectId := raw.result.objectId.isSome
  let needsSerialization :=
    raw.exceptionDetails ∨ hasObjectId ∨ value1.isNone ∨ type1 = "object"
  let value2 :=
    if needsSerialization then
      if ¬strf.exceptionDetails ∧ strf.result.value.isSome then
        match strf.result.value with
        | some (JsValue.str serialized) =>
          match jsonParse serialized with
          | some v => some v
          | none => some (JsValue.str serialized)
        | some other => some other
        | none => value1
      else value1
    else value1
  let typeF :=
    if raw.exceptionDetails then
      if isArrayJs value2 then "array"
      else if isNullJs value2 then "null"
      else typeofJs value2
    else if value2.isSome then
      if isArrayJs value2 then "array"
      else if isNullJs value2 then "null"
      else if typeofJs value2 ≠ "object" then typeofJs value2
      else type1
    else type1
  ({ type := typeF, value := value2 }, decide needsSerialization)

/-- The closed type tag set named by the specification for
`EvaluationResult.type`. -/
def closedTypeTags : List String :=
  ["number", "string", "boolean", "null", "array", "object", "undefined"]

/-! ## The breakpoint evaluation session (src/breakpoint-session.ts) -/

/-- Tool content entry: `ToolContent` of src/types.ts with the constant
`type: text` tag left implicit. -/
structure ToolContent where
  text : String
deriving DecidableEq

/-- The `createContent` helper (src/breakpoint-session.ts lines 13-18); an
absent or empty message (both falsy in JavaScript) yields no content. -/
def createContent : Option String → List ToolContent
  | none => []
  | some s => if s = "" then [] else [{ text := s }]

/-- The process-exit error text (src/breakpoint-session.ts line 11). -/
def PROCESS_EXIT_ERROR : String := "Process exited before breakpoint was hit"

/-- The `DebugScriptResponse` shape: content plus the structured content
variants (`results` on success, `error` on failure) and the error flag. -/
structure DebugScriptResponse where
  content : List ToolContent
  results : Option (List EvaluationResult) := none
  error : Option String := none
  isError : Bool := false

/-- `SessionResultSerializer.success` (src/breakpoint-session.ts 38-43). -/
def SessionResultSerializer.success (evaluations : List EvaluationResult) :
    DebugScriptResponse :=
  { content := createContent none, results := some evaluations }

/-- `SessionResultSerializer.processExitError`
(src/breakpoint-session.ts 45-51). -/
def SessionResultSerializer.processExitError : DebugScriptResponse :=
  { content := createContent (some PROCESS_EXIT_ERROR)
    error := some PROCESS_EXIT_ERROR
    isError := true }

/-- `SessionResultSerializer.error` (src/breakpoint-session.ts 53-59). -/
def SessionResultSerializer.error (message : String) : DebugScriptResponse :=
  { content := createContent (some message)
    error := some message
    isError := true }

/-- The session state tags (src/breakpoint-session.ts line 20). -/
inductive SessionState where
  | waitingForRuntime
  | runtimeReady
  | completed
  | errored
deriving DecidableEq

/-- Subscription bookkeeping of `SessionListenerManager`: the attached flag,
the pause-removal handle, and which of the five underlying registrations are
currently in place. -/
structure ListenerState where
  listenersAttached : Bool
  pausedHandle : Bool
  exitOn : Bool
  closeOn : Bool
  disconnectOn : Bool
  ctxDestroyedOn : Bool
deriving DecidableEq

/-- The five listener registrations managed by the session. -/
inductive ListenerKind where
  | pausedL
  | exitL
  | closeL
  | disconnectL
  | ctxDestroyedL
deriving DecidableEq

/-- Observable actions emitted by the handlers: cancelling the timer, removing
one listener registration, resolving the outward promise, recording an
evaluation, and issuing `Debugger.resume`. -/
inductive Action where
  | clearTimeoutA : Action
  | removeL (kind : ListenerKind) : Action
  | resolveA (result : DebugScriptResponse) : Action
  | recordA (evaluation : EvaluationResult) : Action
  | resumeA : Action

/-- Which of the five removal operations of `detach` throw when invoked.
`removeListener` style calls can in principle raise; the source relies on the
`try/finally` in `settle` so that such a failure cannot block delivery. -/
structure DetachFaults where
  exitOff : Bool := false
  closeOff : Bool := false
  disconnectOff : Bool := false
  ctxDestroyedOff : Bool := false
  pausedOff : Bool := false

/-- Fault-free removal environment. -/
def noFaults : DetachFaults := {}

/-- `SessionListenerManager.detach` (src/breakpoint-session.ts 184-200):
removes the four emitter registrations in source order, then calls the stored
pause-removal handle, then clears the attached flag. A faulting removal throws
out of `detach`: the registrations removed so far stay removed, the rest stay
in place, and the attached flag is not cleared. Returns the new listener
state, the removal actions performed, and whether a fault escaped. -/
def detach (f : DetachFaults) (l : ListenerState) :
    ListenerState × List Action × Bool :=
  if ¬l.listenersAttached then (l, [], false)
  else if f.exitOff then (l, [], true)
  else
    let l1 := { l with exitOn := false }
    if f.closeOff then (l1, [Action.removeL ListenerKind.exitL], true)
    else
      let l2 := { l1 with closeOn := false }
      if f.disconnectOff then
        (l2, [Action.removeL ListenerKind.exitL,
              Action.removeL ListenerKind.closeL], true)
      else
        let l3 := { l2 with disconnectOn := false }
        if f.ctxDestroyedOff then
          (l3, [Action.removeL ListenerKind.exitL,
                Action.removeL ListenerKind.closeL,
                Action.removeL ListenerKind.disconnectL], true)
        else
          let l4 := { l3 with ctxDestroyedOn := false }
          if l4.pausedHandle then
            if f.pausedOff then
              (l4, [Action.removeL ListenerKind.exitL,
                    Action.removeL ListenerKind.closeL,
                    Action.removeL ListenerKind.disconnectL,
                    Action.removeL ListenerKind.ctxDestroyedL], true)
            else
              ({ l4 with pausedHandle := false, listenersAttached := false },
               [Action.removeL ListenerKind.exitL,
                Action.removeL ListenerKind.closeL,
                Action.removeL ListenerKind.disconnectL,
                Action.removeL ListenerKind.ctxDestroyedL,
                Action.removeL ListenerKind.pausedL], false)
          else
            ({ l4 with listenersAttached := false },
             [Action.removeL ListenerKind.exitL,
              Action.removeL ListenerKind.closeL,
              Action.removeL ListenerKind.disconnectL,
              Action.removeL ListenerKind.ctxDestroyedL], false)

/-- The mutable state of one `BreakpointEvaluationSession`: the
`SessionStateMachine` fields (state, evaluations, the live-timer flag standing
for `timeoutId`, the stored resolver standing for `resolvePromise`), the
listener bookkeeping, and the record of outward deliveries made so far. -/
structure Session where
  state : SessionState
  evaluations : List EvaluationResult
  timeoutActive : Bool
  resolveAvailable : Bool
  delivered : List DebugScriptResponse
  listeners : ListenerState

/-- `SessionStateMachine.isSettled` (src/breakpoint-session.ts 78-80). -/
def isSettled (s : Session) : Bool :=
  match s.state with
  | SessionState.completed => true
  | SessionState.errored => true
  | _ => false

/-- `SessionStateMachine.settle` (src/breakpoint-session.ts 123-140): guarded
by the settled check, it sets the terminal state, cancels the timer, runs the
`onSettle` callback (which detaches the listeners) inside `try`, and in the
`finally` clears the stored resolver and resolves the outward promise with the
result, so a detach fault cannot block delivery. -/
def settle (f : DetachFaults) (s : Session) (result : DebugScriptResponse)
    (nextState : SessionState) : Session × List Action :=
  if isSettled s then (s, [])
  else
    let clearTr : List Action :=
      if s.timeoutActive then [Action.clearTimeoutA] else []
    let s1 := { s with state := nextState, timeoutActive := false }
    let d := detach f s1.listeners
    let s2 := { s1 with listeners := d.1 }
    if s2.resolveAvailable then
      let s3 := { s2 with resolveAvailable := false,
                          delivered := s2.delivered ++ [result] }
      (s3, clearTr ++ d.2.1 ++ [Action.resolveA result])
    else (s2, clearTr ++ d.2.1)

/-- `SessionStateMachine.settleWithProcessExitError`
(src/breakpoint-session.ts 115-117). -/
def settleWithProcessExitError (f : DetachFaults) (s : Session) :
    Session × List Action :=
  settle f s SessionResultSerializer.processExitError SessionState.errored

/-- `SessionStateMachine.settleWithError` (src/breakpoint-session.ts 119-121). -/
def settleWithError (f : DetachFaults) (s : Session) (message : String) :
    Session × List Action :=
  settle f s (SessionResultSerializer.error message) SessionState.errored

/-- `SessionStateMachine.hasEvaluations` (src/breakpoint-session.ts 98-100). -/
def hasEvaluations (s : Session) : Bool :=
  decide (0 < s.evaluations.length)

/-- `SessionStateMachine.finishOnProcessTermination`
(src/breakpoint-session.ts 102-113). -/
def finishOnProcessTermination (f : DetachFaults) (s : Session) :
    Session × List Action :=
  if isSettled s then (s, [])
  else if ¬hasEvaluations s then settleWithProcessExitError f s
  else
    settle f s (SessionResultSerializer.success s.evaluations)
      SessionState.completed

/-- `SessionStateMachine.recordEvaluation` (src/breakpoint-session.ts 92-96):
appends only while unsettled. -/
def recordEvaluation (s : Session) (evaluation : EvaluationResult) :
    Session × List Action :=
  if ¬isSettled s then
    ({ s with evaluations := s.evaluations ++ [evaluation] },
     [Action.recordA evaluation])
  else (s, [])

/-- `SessionStateMachine.markRuntimeReady` (src/breakpoint-session.ts 86-90). -/
def markRuntimeReady (s : Session) : Session :=
  if s.state = SessionState.waitingForRuntime then
    { s with state := SessionState.runtimeReady }
  else s

/-- One call frame of a `Debugger.paused` event (src/breakpoint-session.ts
28-35). `callFrameId` is a plain string in the protocol; the handler treats an
empty string as unusable via its falsy check. -/
structure CallFrame where
  callFrameId : String
  url : Option String := none
  location : Option (Int × Int × Int) := none

/-- Line number of a frame location (scriptId is opaque in the model, the
triple is scriptId-stand-in, lineNumber, columnNumber). -/
def locLineNumber (loc : Int × Int × Int) : Int := loc.2.1

/-- A `Debugger.paused` event (src/breakpoint-session.ts 28-35). -/
structure DebuggerPausedEvent where
  callFrames : List CallFrame
  hitBreakpoints : Option (List String) := none

/-- The `SessionOptions` identifying which pauses count
(src/breakpoint-session.ts 22-26). -/
structure SessionOptions where
  breakpointId : String
  targetUrl : String
  targetLineNumber : Int

/-- The caller-supplied arguments the session consults: the expression and the
timeout in milliseconds (src/types.ts `DebugScriptArguments`, restricted to
the fields the session reads). -/
structure SessionArgs where
  expression : String
  timeout : Nat

/-- The non-pause signals a session can receive: process exit, close and
transport disconnect (all three registrations share
`handleProcessTermination`, src/breakpoint-session.ts 176-178 and 253-255),
execution-context destruction, resolution or rejection of the initial
`Runtime.runIfWaitingForDebugger` call, and the timeout timer firing. -/
inductive InterSignal where
  | procTermination
  | ctxDestroyed
  | runtimeResolved (childExited : Bool)
  | runtimeRejected (message : String)
  | timeoutFired

/-- A signal delivered to the session: either a non-pause signal, or a
`Debugger.paused` event together with its environmental outcomes. For a pause,
`inter` is an optional non-pause signal delivered by the event loop while the
handler awaits the remote expression evaluation; `evalOutcome` is the outcome
of that evaluation (`Except.error` when `evaluateExpression` rejects);
`resumeError` carries the rejection message when the `Debugger.resume` call of
the handler fails. -/
inductive Signal where
  | simple (sig : InterSignal)
  | pause (event : DebuggerPausedEvent) (inter : Option InterSignal)
      (evalOutcome : Except String EvaluationResult)
      (resumeError : Option String)

/-- `handleProcessTermination` (src/breakpoint-session.ts 253-255). -/
def handleProcessTermination (f : DetachFaults) (s : Session) :
    Session × List Action :=
  finishOnProcessTermination f s

/-- `handleExecutionContextDestroyed` (src/breakpoint-session.ts 257-268). -/
def handleExecutionContextDestroyed (f : DetachFaults) (s : Session) :
    Session × List Action :=
  if isSettled s then (s, [])
  else if s.state = SessionState.waitingForRuntime then
    settleWithProcessExitError f s
  else finishOnProcessTermination f s

/-- `handleRuntimeReady` (src/breakpoint-session.ts 270-280); `childExited`
reports whether the child already had an exit or signal code at this instant. -/
def handleRuntimeReady (f : DetachFaults) (s : Session) (childExited : Bool) :
    Session × List Action :=
  if isSettled s then (s, [])
  else
    let s1 := markRuntimeReady s
    if childExited then settleWithProcessExitError f s1 else (s1, [])

/-- `handleRuntimeError` (src/breakpoint-session.ts 282-288). -/
def handleRuntimeError (f : DetachFaults) (s : Session) (message : String) :
    Session × List Action :=
  if isSettled s then (s, [])
  else settleWithError f s message

/-- The timeout callback installed by `startTimeout`
(src/breakpoint-session.ts 142-147); a timer fires only while it is armed,
and when it does it settles with the timeout message built from the
configured timeout. -/
def handleTimeout (f : DetachFaults) (args : SessionArgs) (s : Session) :
    Session × List Action :=
  if s.timeoutActive then
    settleWithError f s
      ("Timeout waiting for breakpoint after " ++ toString args.timeout ++ "ms")
  else (s, [])

/-- Dispatch of one non-pause signal. -/
def stepSimple (f : DetachFaults) (args : SessionArgs) (s : Session) :
    InterSignal → Session × List Action
  | InterSignal.procTermination => handleProcessTermination f s
  | InterSignal.ctxDestroyed => handleExecutionContextDestroyed f s
  | InterSignal.runtimeResolved childExited => handleRuntimeReady f s childExited
  | InterSignal.runtimeRejected message => handleRuntimeError f s message
  | InterSignal.timeoutFired => handleTimeout f args s

/-- First filter of `handlePaused` (src/breakpoint-session.ts 295): a
non-empty armed breakpoint id that the hit set (absent counts as empty) does
not contain. -/
def pauseMissesBreakpoint (opts : SessionOptions)
    (event : DebuggerPausedEvent) : Bool :=
  opts.breakpointId ≠ "" &&
    !(match event.hitBreakpoints with
      | some hits => opts.breakpointId ∈ hits
      | none => false : Bool)

/-- Second filter of `handlePaused` (src/breakpoint-session.ts 304): the top
frame carries a truthy url that differs from the target url. -/
def pauseUrlMismatch (opts : SessionOptions)
    (event : DebuggerPausedEvent) : Bool :=
  match event.callFrames.head? with
  | some frame =>
    match frame.url with
    | some u => u ≠ "" ∧ u ≠ opts.targetUrl
    | none => false
  | none => false

/-- Third filter of `handlePaused` (src/breakpoint-session.ts 309): the top
frame carries a location whose line differs from the target line. -/
def pauseLineMismatch (opts : SessionOptions)
    (event : DebuggerPausedEvent) : Bool :=
  match event.callFrames.head? with
  | some frame =>
    match frame.location with
    | some loc => locLineNumber loc ≠ opts.targetLineNumber
    | none => false
  | none => false

/-- The `callFrameId` falsy check of `handlePaused`
(src/breakpoint-session.ts 314-315): absent top frame or empty id. -/
def pauseFrameIdMissing (event : DebuggerPausedEvent) : Bool :=
  match event.callFrames.head? with
  | some frame => frame.callFrameId = ""
  | none => true

/-- Applies the optional interleaved signal that the event loop may run while
the pause handler awaits the remote evaluation. -/
def applyInter (f : DetachFaults) (args : SessionArgs) (s : Session) :
    Option InterSignal → Session × List Action
  | none => (s, [])
  | some sig => stepSimple f args s sig

/-- `handlePaused` (src/breakpoint-session.ts 290-343). The three filter
branches issue `Debugger.resume` and return; those resume calls are not
guarded by any try/catch, so a rejection there escapes the async handler and
changes no session state. The evaluation await may interleave other signals
(`inter`); its outcome feeds `recordEvaluation` or, on rejection, the catch
branch. The final resume is guarded: on rejection, a non-empty evaluations
list finishes as on process termination, otherwise the session settles with
the rejection message. -/
def handlePaused (f : DetachFaults) (args : SessionArgs)
    (opts : SessionOptions) (s : Session) (event : DebuggerPausedEvent)
    (inter : Option InterSignal)
    (evalOutcome : Except String EvaluationResult)
    (resumeError : Option String) : Session × List Action :=
  if isSettled s then (s, [])
  else if pauseMissesBreakpoint opts event then (s, [Action.resumeA])
  else if pauseUrlMismatch opts event then (s, [Action.resumeA])
  else if pauseLineMismatch opts event then (s, [Action.resumeA])
  else if pauseFrameIdMissing event then settleWithProcessExitError f s
  else
    let r1 := applyInter f args s inter
    match evalOutcome with
    | Except.error message =>
      let r2 := settleWithError f r1.1 message
      (r2.1, r1.2 ++ r2.2)
    | Except.ok evaluation =>
      let r2 := recordEvaluation r1.1 evaluation
      if isSettled r2.1 then (r2.1, r1.2 ++ r2.2)
      else
        match resumeError with
        | none => (r2.1, r1.2 ++ r2.2 ++ [Action.resumeA])
        | some message =>
          if hasEvaluations r2.1 then
            let r3 := finishOnProcessTermination f r2.1
            (r3.1, r1.2 ++ r2.2 ++ [Action.resumeA] ++ r3.2)
          else
            let r3 := settleWithError f r2.1 message
            (r3.1, r1.2 ++ r2.2 ++ [Action.resumeA] ++ r3.2)

/-- Dispatch of one signal to the session handlers. -/
def step (f : DetachFaults) (args : SessionArgs) (opts : SessionOptions)
    (s : Session) : Signal → Session × List Action
  | Signal.simple sig => stepSimple f args s sig
  | Signal.pause event inter evalOutcome resumeError =>
    handlePaused f args opts s event inter evalOutcome resumeError

/-- Delivers a list of signals in order, accumulating the action trace. -/
def runSteps (f : DetachFaults) (args : SessionArgs) (opts : SessionOptions)
    (s : Session) : List Signal → Session × List Action
  | [] => (s, [])
  | sig :: rest =>
    let r := step f args opts s sig
    let r2 := runSteps f args opts r.1 rest
    (r2.1, r.2 ++ r2.2)

/-- The session state right after `start` has run `begin` and `attach`
(src/breakpoint-session.ts 233-247): unsettled, no evaluations, timer armed,
resolver stored, all listeners attached, nothing delivered. -/
def freshSession : Session :=
  { state := SessionState.waitingForRuntime
    evaluations := []
    timeoutActive := true
    resolveAvailable := true
    delivered := []
    listeners :=
      { listenersAttached := true
        pausedHandle := true
        exitOn := true
        closeOn := true
        disconnectOn := true
        ctxDestroyedOn := true } }


/-! ## Helper lemmas about the session machine -/

theorem settle_of_settled (f : DetachFaults) (r : DebugScriptResponse)
    (n : SessionState) {s : Session} (h : isSettled s = true) :
    settle f s r n = (s, []) := by
  simp [settle, h]

theorem settle_fst_of_not_settled (f : DetachFaults) (r : DebugScriptResponse)
    (n : SessionState) {s : Session} (hs : isSettled s = false)
    (hra : s.resolveAvailable = true) :
    (settle f s r n).1 =
      { state := n
        evaluations := s.evaluations
        timeoutActive := false
        resolveAvailable := false
        delivered := s.delivered ++ [r]
        listeners := (detach f s.listeners).1 } := by
  simp [settle, hs, hra]

theorem settle_snd_of_not_settled (f : DetachFaults) (r : DebugScriptResponse)
    (n : SessionState) {s : Session} (hs : isSettled s = false)
    (hra : s.resolveAvailable = true) :
    (settle f s r n).2 =
      (if s.timeoutActive then [Action.clearTimeoutA] else []) ++
        (detach f s.listeners).2.1 ++ [Action.resolveA r] := by
  simp [settle, hs, hra]

theorem finish_of_settled (f : DetachFaults) {s : Session}
    (h : isSettled s = true) : finishOnProcessTermination f s = (s, []) := by
  simp [finishOnProcessTermination, h]

theorem stepSimple_of_settled (f : DetachFaults) (args : SessionArgs)
    {s : Session} (h : isSettled s = true) (sig : InterSignal) :
    stepSimple f args s sig = (s, []) := by
  cases sig <;>
    simp [stepSimple, handleProcessTermination, handleExecutionContextDestroyed,
      handleRuntimeReady, handleRuntimeError, handleTimeout,
      settleWithError, finish_of_settled, settle_of_settled, h]

theorem step_of_settled (f : DetachFaults) (args : SessionArgs)
    (opts : SessionOptions) {s : Session} (h : isSettled s = true)
    (sig : Signal) : step f args opts s sig = (s, []) := by
  cases sig with
  | simple sig => exact stepSimple_of_settled f args h sig
  | pause event inter evalOutcome resumeError => simp [step, handlePaused, h]

/-- Invariant tying the settled flag to the outward-promise bookkeeping: an
unsettled session still holds its resolver and has delivered nothing, a
settled session has consumed the resolver after exactly one delivery. -/
def SessionInv (s : Session) : Prop :=
  (isSettled s = false → s.resolveAvailable = true ∧ s.delivered = []) ∧
  (isSettled s = true → s.resolveAvailable = false ∧ s.delivered.length = 1)

theorem not_settled_of_ne_true {s : Session} (hs : ¬isSettled s = true) :
    isSettled s = false := by
  cases hh : isSettled s
  · rfl
  · exact absurd hh hs

theorem settle_inv (f : DetachFaults) (r : DebugScriptResponse)
    {s : Session} {n : SessionState}
    (hn : n = SessionState.completed ∨ n = SessionState.errored)
    (h : SessionInv s) : SessionInv (settle f s r n).1 := by
  by_cases hs : isSettled s = true
  · rw [settle_of_settled f r n hs]; exact h
  · have hs' : isSettled s = false := not_settled_of_ne_true hs
    obtain ⟨hra, hd⟩ := h.1 hs'
    rw [settle_fst_of_not_settled f r n hs' hra]
    rcases hn with hn | hn <;> subst hn <;>
      exact ⟨fun h' => by simp [isSettled] at h', fun _ => ⟨rfl, by simp [hd]⟩⟩

theorem settleWithError_inv (f : DetachFaults) (message : String)
    {s : Session} (h : SessionInv s) :
    SessionInv (settleWithError f s message).1 :=
  settle_inv f _ (Or.inr rfl) h

theorem settleWithProcessExitError_inv (f : DetachFaults)
    {s : Session} (h : SessionInv s) :
    SessionInv (settleWithProcessExitError f s).1 :=
  settle_inv f _ (Or.inr rfl) h

theorem finish_inv (f : DetachFaults) {s : Session} (h : SessionInv s) :
    SessionInv (finishOnProcessTermination f s).1 := by
  unfold finishOnProcessTermination
  split
  · exact h
  · split
    · exact settleWithProcessExitError_inv f h
    · exact settle_inv f _ (Or.inl rfl) h

theorem recordEvaluation_fst {s : Session} (evaluation : EvaluationResult) :
    (recordEvaluation s evaluation).1 =
      if isSettled s then s
      else { s with evaluations := s.evaluations ++ [evaluation] } := by
  unfold recordEvaluation
  by_cases h : isSettled s = true <;> simp [h]

theorem isSettled_set_evaluations {s : Session}
    {ev : List EvaluationResult} :
    isSettled { s with evaluations := ev } = isSettled s := rfl

theorem recordEvaluation_inv {s : Session} (evaluation : EvaluationResult)
    (h : SessionInv s) : SessionInv (recordEvaluation s evaluation).1 := by
  rw [recordEvaluation_fst]
  by_cases hs : isSettled s = true
  · simpa [hs] using h
  · have hs' := not_settled_of_ne_true hs
    rw [if_neg hs]
    exact ⟨fun _ => h.1 hs', fun h' => absurd (by simpa [isSettled_set_evaluations] using h') hs⟩

theorem isSettled_markRuntimeReady (s : Session) :
    isSettled (markRuntimeReady s) = isSettled s := by
  unfold markRuntimeReady
  split
  · next heq => simp [isSettled, heq]
  · rfl

theorem markRuntimeReady_inv {s : Session} (h : SessionInv s) :
    SessionInv (markRuntimeReady s) := by
  have hfields : (markRuntimeReady s).resolveAvailable = s.resolveAvailable ∧
      (markRuntimeReady s).delivered = s.delivered := by
    unfold markRuntimeReady; split <;> exact ⟨rfl, rfl⟩
  refine ⟨fun h' => ?_, fun h' => ?_⟩
  · rw [hfields.1, hfields.2]
    exact h.1 (by rwa [isSettled_markRuntimeReady] at h')
  · rw [hfields.1, hfields.2]
    exact h.2 (by rwa [isSettled_markRuntimeReady] at h')

theorem handleCtxDestroyed_inv (f : DetachFaults) {s : Session}
    (h : SessionInv s) : SessionInv (handleExecutionContextDestroyed f s).1 := by
  unfold handleExecutionContextDestroyed
  split
  · exact h
  · split
    · exact settleWithProcessExitError_inv f h
    · exact finish_inv f h

theorem handleRuntimeReady_inv (f : DetachFaults) (childExited : Bool)
    {s : Session} (h : SessionInv s) :
    SessionInv (handleRuntimeReady f s childExited).1 := by
  unfold handleRuntimeReady
  split
  · exact h
  · split
    · exact settleWithProcessExitError_inv f (markRuntimeReady_inv h)
    · exact markRuntimeReady_inv h

theorem handleRuntimeError_inv (f : DetachFaults) (message : String)
    {s : Session} (h : SessionInv s) :
    SessionInv (handleRuntimeError f s message).1 := by
  unfold handleRuntimeError
  split
  · exact h
  · exact settleWithError_inv f message h

theorem handleTimeout_inv (f : DetachFaults) (args : SessionArgs)
    {s : Session} (h : SessionInv s) : SessionInv (handleTimeout f args s).1 := by
  unfold handleTimeout
  split
  · exact settleWithError_inv f _ h
  · exact h

theorem stepSimple_inv (f : DetachFaults) (args : SessionArgs) {s : Session}
    (h : SessionInv s) (sig : InterSignal) :
    SessionInv (stepSimple f args s sig).1 := by
  cases sig with
  | procTermination => exact finish_inv f h
  | ctxDestroyed => exact handleCtxDestroyed_inv f h
  | runtimeResolved childExited => exact handleRuntimeReady_inv f childExited h
  | runtimeRejected message => exact handleRuntimeError_inv f message h
  | timeoutFired => exact handleTimeout_inv f args h

theorem applyInter_inv (f : DetachFaults) (args : SessionArgs) {s : Session}
    (h : SessionInv s) (inter : Option InterSignal) :
    SessionInv (applyInter f args s inter).1 := by
  cases inter with
  | none => exact h
  | some sig => exact stepSimple_inv f args h sig

theorem handlePaused_inv (f : DetachFaults) (args : SessionArgs)
    (opts : SessionOptions) {s : Session} (h : SessionInv s)
    (event : DebuggerPausedEvent) (inter : Option InterSignal)
    (evalOutcome : Except String EvaluationResult)
    (resumeError : Option String) :
    SessionInv (handlePaused f args opts s event inter evalOutcome resumeError).1 := by
  unfold handlePaused
  split
  · exact h
  split
  · exact h
  split
  · exact h
  split
  · exact h
  split
  · exact settleWithProcessExitError_inv f h
  have h1 := applyInter_inv f args h inter
  cases evalOutcome with
  | error message => exact settleWithError_inv f message h1
  | ok evaluation =>
    have h2 := recordEvaluation_inv evaluation h1
    dsimp only
    split
    · exact h2
    cases resumeError with
    | none => exact h2
    | some message =>
      dsimp only
      split
      · exact finish_inv f h2
      · exact settleWithError_inv f message h2

theorem step_inv (f : DetachFaults) (args : SessionArgs)
    (opts : SessionOptions) {s : Session} (h : SessionInv s) (sig : Signal) :
    SessionInv (step f args opts s sig).1 := by
  cases sig with
  | simple sig => exact stepSimple_inv f args h sig
  | pause event inter evalOutcome resumeError =>
    exact handlePaused_inv f args opts h event inter evalOutcome resumeError

theorem runSteps_inv (f : DetachFaults) (args : SessionArgs)
    (opts : SessionOptions) {s : Session} (h : SessionInv s)
    (signals : List Signal) :
    SessionInv (runSteps f args opts s signals).1 := by
  induction signals generalizing s with
  | nil => exact h
  | cons sig rest ih => exact ih (step_inv f args opts h sig)



/-! ## Concrete fixtures used by witnesses and counterexamples -/

/-- Concrete caller arguments for witnesses. -/
def argsW : SessionArgs := { expression := "x", timeout := 1000 }

/-- Concrete session options for witnesses. -/
def optsW : SessionOptions :=
  { breakpointId := "bp1", targetUrl := "file:///app.js", targetLineNumber := 3 }

/-- Concrete evaluation result for witnesses. -/
def evalW : EvaluationResult := { type := "number", value := some (JsValue.num 2) }

/-- A session that has already settled (completed after one delivery). -/
def settledW : Session :=
  { state := SessionState.completed
    evaluations := [evalW]
    timeoutActive := false
    resolveAvailable := false
    delivered := [SessionResultSerializer.success [evalW]]
    listeners :=
      { listenersAttached := false
        pausedHandle := false
        exitOn := false
        closeOn := false
        disconnectOn := false
        ctxDestroyedOn := false } }

/-- A fresh session that has recorded one evaluation. -/
def sessionWithEvalW : Session := { freshSession with evaluations := [evalW] }

/-- A pause event that matches the armed breakpoint, url and line of `optsW`. -/
def matchEventW : DebuggerPausedEvent :=
  { callFrames :=
      [{ callFrameId := "frame-0"
         url := some "file:///app.js"
         location := some (0, 3, 0) }]
    hitBreakpoints := some ["bp1"] }

/-- A pause event whose hit set excludes the armed breakpoint id of `optsW`. -/
def missEventW : DebuggerPausedEvent :=
  { callFrames :=
      [{ callFrameId := "frame-0"
         url := some "file:///other.js"
         location := some (0, 7, 0) }]
    hitBreakpoints := some ["bp-other"] }

/-! ## Claims -/

/-- Claim C1: for every sequence of signals (pause, process exit/close,
transport disconnect, execution-context destroyed, timeout, runtime-continue
resolution/rejection) delivered to a session, once the first terminal
transition has occurred, no later signal records an additional evaluation,
mutates session state, or resolves the outward promise again; starting from a
freshly begun session, the outcome is delivered exactly once. -/
theorem settlement_is_idempotent (f : DetachFaults) (args : SessionArgs)
    (opts : SessionOptions) :
    (∀ (s : Session) (sig : Signal), isSettled s = true →
      step f args opts s sig = (s, [])) ∧
    (∀ (s0 : Session) (signals : List Signal), isSettled s0 = false →
      s0.resolveAvailable = true → s0.delivered = [] →
      (runSteps f args opts s0 signals).1.delivered.length ≤ 1 ∧
      (isSettled (runSteps f args opts s0 signals).1 = true →
        (runSteps f args opts s0 signals).1.delivered.length = 1)) := by
  constructor
  · intro s sig h
    exact step_of_settled f args opts h sig
  · intro s0 signals h0 h1 h2
    have hinv : SessionInv s0 :=
      ⟨fun _ => ⟨h1, h2⟩, fun h' => absurd h' (by simp [h0])⟩
    have hfin := runSteps_inv f args opts hinv signals
    constructor
    · by_cases hset : isSettled (runSteps f args opts s0 signals).1 = true
      · exact le_of_eq (hfin.2 hset).2
      · have hunset := hfin.1 (not_settled_of_ne_true hset)
        simp [hunset.2]
    · intro hset
      exact (hfin.2 hset).2

/-- Witness for C1 at concrete inputs: a settled session ignores a
termination signal, and a fresh session delivers at most once across a
signal sequence. -/
theorem settlement_is_idempotent_witness :
    step noFaults argsW optsW settledW
        (Signal.simple InterSignal.procTermination) = (settledW, []) ∧
    (runSteps noFaults argsW optsW freshSession
        [Signal.simple InterSignal.procTermination,
         Signal.simple InterSignal.timeoutFired]).1.delivered.length ≤ 1 := by
  refine ⟨?_, ?_⟩
  · exact (settlement_is_idempotent noFaults argsW optsW).1 settledW _ rfl
  · exact ((settlement_is_idempotent noFaults argsW optsW).2 freshSession _
      rfl rfl rfl).1

/-- Claim C2: a not-yet-settled session receiving a process-termination
signal (process exit, process close, and transport disconnect all share this
handler) settles Errored with the process-exit message when the evaluations
list is empty, and otherwise settles Completed carrying exactly the
evaluations recorded so far, in hit order. -/
theorem termination_finishes_session (f : DetachFaults) (args : SessionArgs)
    (opts : SessionOptions) {s : Session} (hs : isSettled s = false)
    (hra : s.resolveAvailable = true) :
    (s.evaluations = [] →
      (step f args opts s (Signal.simple InterSignal.procTermination)).1.state
          = SessionState.errored ∧
      (step f args opts s (Signal.simple InterSignal.procTermination)).1.delivered
          = s.delivered ++ [SessionResultSerializer.processExitError]) ∧
    (s.evaluations ≠ [] →
      (step f args opts s (Signal.simple InterSignal.procTermination)).1.state
          = SessionState.completed ∧
      (step f args opts s (Signal.simple InterSignal.procTermination)).1.delivered
          = s.delivered ++ [SessionResultSerializer.success s.evaluations]) ∧
    SessionResultSerializer.processExitError.error
        = some "Process exited before breakpoint was hit" := by
  refine ⟨?_, ?_, rfl⟩
  · intro he
    have h1 : hasEvaluations s = false := by simp [hasEvaluations, he]
    have hred : step f args opts s (Signal.simple InterSignal.procTermination)
        = settle f s SessionResultSerializer.processExitError
            SessionState.errored := by
      simp [step, stepSimple, handleProcessTermination,
        finishOnProcessTermination, hs, h1, settleWithProcessExitError]
    rw [hred, settle_fst_of_not_settled f _ _ hs hra]
    exact ⟨rfl, rfl⟩
  · intro he
    have h1 : hasEvaluations s = true := by
      simp [hasEvaluations, List.length_pos, he]
    have hred : step f args opts s (Signal.simple InterSignal.procTermination)
        = settle f s (SessionResultSerializer.success s.evaluations)
            SessionState.completed := by
      simp [step, stepSimple, handleProcessTermination,
        finishOnProcessTermination, hs, h1]
    rw [hred, settle_fst_of_not_settled f _ _ hs hra]
    exact ⟨rfl, rfl⟩

/-- Witness for C2: a fresh session with no evaluations errors with the
process-exit response, and one with a recorded evaluation completes with it. -/
theorem termination_finishes_session_witness :
    ((step noFaults argsW optsW freshSession
        (Signal.simple InterSignal.procTermination)).1.state
        = SessionState.errored ∧
      (step noFaults argsW optsW freshSession
        (Signal.simple InterSignal.procTermination)).1.delivered
        = freshSession.delivered ++ [SessionResultSerializer.processExitError]) ∧
    ((step noFaults argsW optsW sessionWithEvalW
        (Signal.simple InterSignal.procTermination)).1.state
        = SessionState.completed ∧
      (step noFaults argsW optsW sessionWithEvalW
        (Signal.simple InterSignal.procTermination)).1.delivered
        = sessionWithEvalW.delivered ++
            [SessionResultSerializer.success sessionWithEvalW.evaluations]) := by
  refine ⟨?_, ?_⟩
  · exact (@termination_finishes_session noFaults argsW optsW freshSession
      (by rfl) (by rfl)).1 rfl
  · exact (@termination_finishes_session noFaults argsW optsW sessionWithEvalW
      (by rfl) (by rfl)).2.1 (by simp [sessionWithEvalW])

/-- Shared helper: a filtered pause (armed id missed, url mismatch, or line
mismatch) issues one resume and leaves the session untouched, whatever the
evaluation outcome or resume outcome would have been. -/
theorem handlePaused_filtered (f : DetachFaults) (args : SessionArgs)
    (opts : SessionOptions) {s : Session} (hs : isSettled s = false)
    (event : DebuggerPausedEvent) (inter : Option InterSignal)
    (evalOutcome : Except String EvaluationResult)
    (resumeError : Option String)
    (hfilter : pauseMissesBreakpoint opts event = true ∨
      pauseUrlMismatch opts event = true ∨
      pauseLineMismatch opts event = true) :
    step f args opts s (Signal.pause event inter evalOutcome resumeError)
      = (s, [Action.resumeA]) := by
  rcases hfilter with h1 | h2 | h3
  · simp [step, handlePaused, hs, h1]
  · by_cases hm : pauseMissesBreakpoint opts event = true <;>
      simp [step, handlePaused, hs, hm, h2]
  · by_cases hm : pauseMissesBreakpoint opts event = true
    · simp [step, handlePaused, hs, hm]
    · by_cases hu : pauseUrlMismatch opts event = true <;>
        simp [step, handlePaused, hs, hm, hu, h3]

/-- Claim C4: every pause event delivered to a not-yet-settled session whose
hit set does not contain the non-empty armed breakpoint id, or whose top frame
has a known url differing from the target url, or a known line differing from
the target line, makes the session resume the target, record no evaluation,
and remain in its current unsettled state. -/
theorem filtered_pause_resumed_unrecorded (f : DetachFaults)
    (args : SessionArgs) (opts : SessionOptions) {s : Session}
    (hs : isSettled s = false) (event : DebuggerPausedEvent)
    (inter : Option InterSignal)
    (evalOutcome : Except String EvaluationResult)
    (resumeError : Option String)
    (hfilter : pauseMissesBreakpoint opts event = true ∨
      pauseUrlMismatch opts event = true ∨
      pauseLineMismatch opts event = true) :
    step f args opts s (Signal.pause event inter evalOutcome resumeError)
      = (s, [Action.resumeA]) :=
  handlePaused_filtered f args opts hs event inter evalOutcome resumeError
    hfilter

/-- Witness for C4: a fresh session resumes, unrecorded and unchanged, on a
pause whose hit set excludes the armed id. -/
theorem filtered_pause_resumed_unrecorded_witness :
    step noFaults argsW optsW freshSession
        (Signal.pause missEventW none (Except.ok evalW) none)
      = (freshSession, [Action.resumeA]) := by
  exact @filtered_pause_resumed_unrecorded noFaults argsW optsW freshSession
    (by rfl) missEventW none (Except.ok evalW) none
    (Or.inl (by decide))

/-- Counterexample to C3 as stated: a filtered pause (hit set excludes the
armed id) whose resume call fails with message "resume failed" leaves the
fresh session entirely unchanged — still unsettled, nothing delivered — rather
than settling Errored with the resume error text. The resume calls in the
filter branches of `handlePaused` are outside any try/catch. -/
theorem resume_failure_on_filtered_pause_does_not_settle :
    step noFaults argsW optsW freshSession
        (Signal.pause missEventW none (Except.ok evalW) (some "resume failed"))
      = (freshSession, [Action.resumeA]) ∧
    freshSession.state = SessionState.waitingForRuntime ∧
    freshSession.delivered = [] := by
  refine ⟨?_, rfl, rfl⟩
  rfl

/-- Claim C3 (amended): when the resume call issued after a successful
evaluation fails, the session settles Completed with exactly the evaluations
recorded so far — the evaluation just recorded is always among them, so this
path never settles Errored — and processes no further hits; a resume failure
on a filtered, non-matching pause does not settle the session at all: the
handler exits with the session state unchanged. -/
theorem resume_failure_after_evaluation (f : DetachFaults)
    (args : SessionArgs) (opts : SessionOptions) {s : Session}
    (event : DebuggerPausedEvent) (evaluation : EvaluationResult)
    (message : String) (hs : isSettled s = false)
    (hra : s.resolveAvailable = true)
    (h1 : pauseMissesBreakpoint opts event = false)
    (h2 : pauseUrlMismatch opts event = false)
    (h3 : pauseLineMismatch opts event = false)
    (h4 : pauseFrameIdMissing event = false) :
    ((step f args opts s (Signal.pause event none (Except.ok evaluation)
        (some message))).1.state = SessionState.completed ∧
      (step f args opts s (Signal.pause event none (Except.ok evaluation)
        (some message))).1.evaluations = s.evaluations ++ [evaluation] ∧
      (step f args opts s (Signal.pause event none (Except.ok evaluation)
        (some message))).1.delivered = s.delivered ++
          [SessionResultSerializer.success (s.evaluations ++ [evaluation])] ∧
      (∀ sig : Signal,
        step f args opts (step f args opts s (Signal.pause event none
          (Except.ok evaluation) (some message))).1 sig
          = ((step f args opts s (Signal.pause event none
              (Except.ok evaluation) (some message))).1, []))) ∧
    (∀ event2 : DebuggerPausedEvent,
      (pauseMissesBreakpoint opts event2 = true ∨
        pauseUrlMismatch opts event2 = true ∨
        pauseLineMismatch opts event2 = true) →
      step f args opts s (Signal.pause event2 none (Except.ok evaluation)
        (some message)) = (s, [Action.resumeA])) := by
  have hrec : recordEvaluation s evaluation =
      ({ s with evaluations := s.evaluations ++ [evaluation] },
        [Action.recordA evaluation]) := by
    simp [recordEvaluation, hs]
  have hs2 : isSettled { s with evaluations := s.evaluations ++ [evaluation] }
      = false := hs
  have hra2 : ({ s with evaluations := s.evaluations ++ [evaluation] }
      : Session).resolveAvailable = true := hra
  have hhas : hasEvaluations
      { s with evaluations := s.evaluations ++ [evaluation] } = true := by
    simp [hasEvaluations]
  have hmain : (step f args opts s (Signal.pause event none
      (Except.ok evaluation) (some message))).1 =
      (settle f { s with evaluations := s.evaluations ++ [evaluation] }
        (SessionResultSerializer.success (s.evaluations ++ [evaluation]))
        SessionState.completed).1 := by
    simp [step, handlePaused, hs, h1, h2, h3, h4, applyInter, hrec, hs2, hhas,
      finishOnProcessTermination]
  have hfst := settle_fst_of_not_settled f
    (SessionResultSerializer.success (s.evaluations ++ [evaluation]))
    SessionState.completed hs2 hra2
  refine ⟨⟨?_, ?_, ?_, ?_⟩, ?_⟩
  · rw [hmain, hfst]
  · rw [hmain, hfst]
  · rw [hmain, hfst]
  · intro sig
    refine step_of_settled f args opts ?_ sig
    rw [hmain, hfst]
    rfl
  · intro event2 hfilter
    exact handlePaused_filtered f args opts hs event2 none
      (Except.ok evaluation) (some message) hfilter

/-- Witness for C3 (amended): on a matching pause of a fresh session whose
follow-up resume fails, the session completes carrying the single recorded
evaluation. -/
theorem resume_failure_after_evaluation_witness :
    (step noFaults argsW optsW freshSession (Signal.pause matchEventW none
      (Except.ok evalW) (some "boom"))).1.state = SessionState.completed ∧
    (step noFaults argsW optsW freshSession (Signal.pause matchEventW none
      (Except.ok evalW) (some "boom"))).1.evaluations = [evalW] := by
  have h := @resume_failure_after_evaluation noFaults argsW optsW freshSession
    matchEventW evalW "boom" (by rfl) (by rfl) (by decide) (by decide)
    (by decide) (by decide)
  exact ⟨h.1.1, h.1.2.1⟩

/-- Claim C5: when the timeout timer fires on a session no terminal signal
has settled (the timer is still armed precisely because every settlement
cancels it), the session settles Errored with exactly the message built from
the configured timeout value. -/
theorem timeout_settles_with_message (f : DetachFaults) (args : SessionArgs)
    (opts : SessionOptions) {s : Session} (hs : isSettled s = false)
    (hta : s.timeoutActive = true) (hra : s.resolveAvailable = true) :
    (step f args opts s (Signal.simple InterSignal.timeoutFired)).1.state
        = SessionState.errored ∧
    (step f args opts s (Signal.simple InterSignal.timeoutFired)).1.delivered
        = s.delivered ++ [SessionResultSerializer.error
            ("Timeout waiting for breakpoint after "
              ++ toString args.timeout ++ "ms")] := by
  have hred : step f args opts s (Signal.simple InterSignal.timeoutFired)
      = settle f s (SessionResultSerializer.error
          ("Timeout waiting for breakpoint after "
            ++ toString args.timeout ++ "ms")) SessionState.errored := by
    simp [step, stepSimple, handleTimeout, hta, settleWithError]
  rw [hred, settle_fst_of_not_settled f _ _ hs hra]
  exact ⟨rfl, rfl⟩

/-- Witness for C5: the timer firing on a fresh session with timeout 1000
delivers the error with message Timeout waiting for breakpoint after 1000ms. -/
theorem timeout_settles_with_message_witness :
    (step noFaults argsW optsW freshSession
      (Signal.simple InterSignal.timeoutFired)).1.state
        = SessionState.errored ∧
    (step noFaults argsW optsW freshSession
      (Signal.simple InterSignal.timeoutFired)).1.delivered
        = [SessionResultSerializer.error
            "Timeout waiting for breakpoint after 1000ms"] := by
  have h := @timeout_settles_with_message noFaults argsW optsW freshSession
    (by rfl) (by rfl) (by rfl)
  exact ⟨h.1, h.2⟩

/-- Claim C6: on every settlement path the timer cancellation and the
listener removals all precede the single resolve action, which is always
emitted whatever removal faults occur; with no faults and the listeners
attached, all five removals appear, in source order, before the resolve;
and a detach following a successful detach removes nothing. -/
theorem detach_runs_before_resolve :
    (∀ (f : DetachFaults) (s : Session) (r : DebugScriptResponse)
        (n : SessionState), isSettled s = false → s.resolveAvailable = true →
      (settle f s r n).2 =
        ((if s.timeoutActive then [Action.clearTimeoutA] else []) ++
          (detach f s.listeners).2.1) ++ [Action.resolveA r] ∧
      (settle f s r n).1.delivered = s.delivered ++ [r]) ∧
    (∀ (s : Session) (r : DebugScriptResponse) (n : SessionState),
      isSettled s = false → s.resolveAvailable = true →
      s.timeoutActive = true → s.listeners.listenersAttached = true →
      s.listeners.pausedHandle = true →
      (settle noFaults s r n).2 =
        [Action.clearTimeoutA,
         Action.removeL ListenerKind.exitL,
         Action.removeL ListenerKind.closeL,
         Action.removeL ListenerKind.disconnectL,
         Action.removeL ListenerKind.ctxDestroyedL,
         Action.removeL ListenerKind.pausedL,
         Action.resolveA r]) ∧
    (∀ l : ListenerState,
      (detach noFaults (detach noFaults l).1).2.1 = [] ∧
      (detach noFaults (detach noFaults l).1).1 = (detach noFaults l).1) := by
  refine ⟨?_, ?_, ?_⟩
  · intro f s r n hs hra
    refine ⟨?_, ?_⟩
    · rw [settle_snd_of_not_settled f r n hs hra]
    · rw [settle_fst_of_not_settled f r n hs hra]
  · intro s r n hs hra hta hat hph
    rw [settle_snd_of_not_settled noFaults r n hs hra]
    have hdet : (detach noFaults s.listeners).2.1 =
        [Action.removeL ListenerKind.exitL,
         Action.removeL ListenerKind.closeL,
         Action.removeL ListenerKind.disconnectL,
         Action.removeL ListenerKind.ctxDestroyedL,
         Action.removeL ListenerKind.pausedL] := by
      simp [detach, noFaults, hat, hph]
    rw [hdet, hta]
    rfl
  · intro l
    by_cases hat : l.listenersAttached = true
    · by_cases hph : l.pausedHandle = true
      · simp [detach, noFaults, hat, hph]
      · simp [detach, noFaults, hat, hph]
    · have hat' : l.listenersAttached = false := by
        cases hh : l.listenersAttached
        · rfl
        · exact absurd hh hat
      simp [detach, hat']

/-- Witness for C6 at a fresh session: the settle trace is exactly the timer
cancel, the five removals in order, then the resolve. -/
theorem detach_runs_before_resolve_witness :
    (settle noFaults freshSession (SessionResultSerializer.error "m")
        SessionState.errored).2 =
      [Action.clearTimeoutA,
       Action.removeL ListenerKind.exitL,
       Action.removeL ListenerKind.closeL,
       Action.removeL ListenerKind.disconnectL,
       Action.removeL ListenerKind.ctxDestroyedL,
       Action.removeL ListenerKind.pausedL,
       Action.resolveA (SessionResultSerializer.error "m")] := by
  exact detach_runs_before_resolve.2.1 freshSession
    (SessionResultSerializer.error "m") SessionState.errored
    rfl rfl rfl rfl rfl

/-! ## Value normalizer lemmas -/

theorem typeofJs_mem_closedTypeTags (v : Option JsValue) :
    typeofJs v ∈ closedTypeTags := by
  rcases v with _ | v
  · simp [typeofJs, closedTypeTags]
  · cases v <;> simp [typeofJs, closedTypeTags]

theorem directAdjust_fst (raw : EvalReturn) :
    (directAdjust raw).1 = "null" ∨ (directAdjust raw).1 = "array" ∨
      (directAdjust raw).1 = raw.result.type.getD "undefined" := by
  unfold directAdjust
  dsimp only
  split_ifs <;> simp

theorem evaluateExpression_type_eq (raw strf : EvalReturn) :
    (evaluateExpression raw strf).1.type =
      (if raw.exceptionDetails then
        (if isArrayJs (evaluateExpression raw strf).1.value then "array"
         else if isNullJs (evaluateExpression raw strf).1.value then "null"
         else typeofJs (evaluateExpression raw strf).1.value)
      else if ((evaluateExpression raw strf).1.value).isSome then
        (if isArrayJs (evaluateExpression raw strf).1.value then "array"
         else if isNullJs (evaluateExpression raw strf).1.value then "null"
         else if typeofJs (evaluateExpression raw strf).1.value ≠ "object" then
           typeofJs (evaluateExpression raw strf).1.value
         else (directAdjust raw).1)
      else (directAdjust raw).1) := rfl

theorem evaluateExpression_snd (raw strf : EvalReturn) :
    (evaluateExpression raw strf).2 =
      decide (raw.exceptionDetails ∨ raw.result.objectId.isSome ∨
        (directAdjust raw).2.isNone ∨ (directAdjust raw).1 = "object") := rfl

theorem evaluateExpression_value_not_serialized (raw strf : EvalReturn)
    (hn : ¬(raw.exceptionDetails ∨ raw.result.objectId.isSome ∨
      (directAdjust raw).2.isNone ∨ (directAdjust raw).1 = "object")) :
    (evaluateExpression raw strf).1.value = (directAdjust raw).2 := by
  show (if (raw.exceptionDetails ∨ raw.result.objectId.isSome ∨
      (directAdjust raw).2.isNone ∨ (directAdjust raw).1 = "object") then
        (if ¬strf.exceptionDetails ∧ strf.result.value.isSome then
          match strf.result.value with
          | some (JsValue.str serialized) =>
            match jsonParse serialized with
            | some v => some v
            | none => some (JsValue.str serialized)
          | some other => some other
          | none => (directAdjust raw).2
        else (directAdjust raw).2)
      else (directAdjust raw).2) = (directAdjust raw).2
  rw [if_neg hn]

/-- Raw result reporting the out-of-set type tag function with no inline
value, description, object id or exception. -/
def rawFunctionW : EvalReturn :=
  { result := { type := some "function" }, exceptionDetails := false }

/-- Serialization pass outcome carrying no usable value (the guarded wrapper
returned undefined). -/
def strfUndefinedW : EvalReturn := {}

/-- Counterexample to C7 as stated: for the raw result reporting type
function with no value, no description, no object id and no exception,
and a serialization pass that produces no value, the normalizer returns a
result whose type field is the string function, which is outside the closed
set. -/
theorem normalized_type_escapes_closed_set :
    (evaluateExpression rawFunctionW strfUndefinedW).1.type = "function" ∧
    "function" ∉ closedTypeTags := ⟨rfl, by decide⟩

/-- Claim C7 (amended): the EvaluationResult produced by the value normalizer
has a type field in the closed set whenever the direct evaluation raised an
exception or the reported preliminary type already lies in the closed set
(absent counts as the tag undefined); a reported type outside the set can
survive to the output only when no exception was raised and the resolved
value is undefined or a plain non-null, non-array object. -/
theorem normalized_type_in_closed_set (raw strf : EvalReturn)
    (h : raw.exceptionDetails = true ∨
      raw.result.type.getD "undefined" ∈ closedTypeTags) :
    (evaluateExpression raw strf).1.type ∈ closedTypeTags := by
  rw [evaluateExpression_type_eq]
  by_cases he : raw.exceptionDetails = true
  · simp only [he, if_true]
    split_ifs <;> first | decide | exact typeofJs_mem_closedTypeTags _
  · have ht : raw.result.type.getD "undefined" ∈ closedTypeTags := by
      rcases h with h | h
      · exact absurd h he
      · exact h
    have htype1 : (directAdjust raw).1 ∈ closedTypeTags := by
      rcases directAdjust_fst raw with h1 | h1 | h1 <;> rw [h1]
      · decide
      · decide
      · exact ht
    have he' : raw.exceptionDetails = false := by
      cases hh : raw.exceptionDetails
      · rfl
      · exact absurd hh he
    simp only [he', Bool.false_eq_true, if_false]
    split_ifs <;>
      first | decide | exact typeofJs_mem_closedTypeTags _ | exact htype1

/-- Witness for C7 at a concrete raw result with exception details: the
output type lands in the closed set. -/
theorem normalized_type_in_closed_set_witness :
    (evaluateExpression
      { result := { type := some "object", objectId := some "obj-1" }
        exceptionDetails := true }
      strfUndefinedW).1.type ∈ closedTypeTags := by
  exact normalized_type_in_closed_set
    { result := { type := some "object", objectId := some "obj-1" }
      exceptionDetails := true }
    strfUndefinedW (Or.inl rfl)

/-- Claim C8: the value normalizer performs the serialization re-evaluation
pass if and only if the direct evaluation raised an exception, or the result
carries an object id, or no usable value was produced after the direct pass,
or the preliminary type is the generic object tag; in every other case the
value of the direct pass is returned without a second remote call. -/
theorem serialization_pass_iff (raw strf : EvalReturn) :
    ((evaluateExpression raw strf).2 = true ↔
      (raw.exceptionDetails = true ∨ raw.result.objectId.isSome = true ∨
        (directAdjust raw).2.isNone = true ∨ (directAdjust raw).1 = "object")) ∧
    ((evaluateExpression raw strf).2 = false →
      (evaluateExpression raw strf).1.value = (directAdjust raw).2) := by
  constructor
  · rw [evaluateExpression_snd]
    simp
  · intro h
    rw [evaluateExpression_snd] at h
    exact evaluateExpression_value_not_serialized raw strf (of_decide_eq_false h)

/-- Witness for C8: a plain inline number needs no serialization pass and its
direct value is returned unchanged. -/
theorem serialization_pass_iff_witness :
    (evaluateExpression
        { result := { type := some "number", value := some (JsValue.num 2) }
          exceptionDetails := false } strfUndefinedW).2 = false ∧
    (evaluateExpression
        { result := { type := some "number", value := some (JsValue.num 2) }
          exceptionDetails := false } strfUndefinedW).1.value =
      (directAdjust
        { result := { type := some "number", value := some (JsValue.num 2) }
          exceptionDetails := false }).2 := by
  refine ⟨rfl, ?_⟩
  exact (serialization_pass_iff
    { result := { type := some "number", value := some (JsValue.num 2) }
      exceptionDetails := false } strfUndefinedW).2 rfl

/-! ## Port extraction (src/debug-tool.ts lines 13 and 64-70) -/

/-- The literal part of PORT_REGEX (src/debug-tool.ts line 13). -/
def inspectBrkPat : List Char := "--inspect-brk=".toList

/-- Leftmost-match scan implementing `command.match(PORT_REGEX)`: at each
position a match requires the literal followed by at least one digit, and the
capture group is the maximal digit run (greedy match of one or more digits).
Returns the captured digits of the first match. -/
def inspectScan : List Char → Option (List Char)
  | [] => none
  | c :: rest =>
    if inspectBrkPat.isPrefixOf (c :: rest) &&
        (match (c :: rest).drop inspectBrkPat.length with
         | d :: _ => d.isDigit
         | [] => false) then
      some (((c :: rest).drop inspectBrkPat.length).takeWhile Char.isDigit)
    else inspectScan rest

/-- `extractPort` (src/debug-tool.ts 64-70): the captured digits parsed as a
decimal number, or the default 9229 when the regex does not match. -/
def extractPort (cmd : String) : Nat :=
  match inspectScan cmd.toList with
  | some ds => digitsToNat ds
  | none => 9229

/-- Declarative match predicate: the pattern occurs at position `i` followed
by at least one digit. -/
def matchAtB (l : List Char) (i : Nat) : Bool :=
  inspectBrkPat.isPrefixOf (l.drop i) &&
    (match (l.drop i).drop inspectBrkPat.length with
     | d :: _ => d.isDigit
     | [] => false)

theorem inspectScan_cons (c : Char) (rest : List Char) :
    inspectScan (c :: rest) =
      if matchAtB (c :: rest) 0 then
        some (((c :: rest).drop inspectBrkPat.length).takeWhile Char.isDigit)
      else inspectScan rest := rfl

theorem matchAtB_shift (c : Char) (rest : List Char) (i : Nat) :
    matchAtB (c :: rest) (i + 1) = matchAtB rest i := rfl

theorem inspectScan_eq_none (l : List Char)
    (h : ∀ i, i < l.length → matchAtB l i = false) : inspectScan l = none := by
  induction l with
  | nil => rfl
  | cons c rest ih =>
    rw [inspectScan_cons]
    have h0 : matchAtB (c :: rest) 0 = false := h 0 (by simp)
    rw [h0]
    simp only [Bool.false_eq_true, if_false]
    refine ih fun i hi => ?_
    rw [← matchAtB_shift c rest i]
    exact h (i + 1) (by simpa using Nat.succ_lt_succ hi)

theorem inspectScan_first (l : List Char) (i : Nat)
    (hm : matchAtB l i = true) (hfirst : ∀ j, j < i → matchAtB l j = false) :
    inspectScan l =
      some (((l.drop i).drop inspectBrkPat.length).takeWhile Char.isDigit) := by
  induction l generalizing i with
  | nil =>
    exfalso
    have hd : ([] : List Char).drop i = [] := List.drop_nil
    unfold matchAtB at hm
    rw [hd] at hm
    exact absurd hm (by decide)
  | cons c rest ih =>
    cases i with
    | zero =>
      rw [inspectScan_cons, if_pos hm, List.drop_zero]
    | succ i' =>
      have h0 : matchAtB (c :: rest) 0 = false := hfirst 0 (Nat.succ_pos _)
      rw [inspectScan_cons, h0]
      simp only [Bool.false_eq_true, if_false]
      have hm' : matchAtB rest i' = true := by
        rw [← matchAtB_shift c rest i']; exact hm
      have hfirst' : ∀ j, j < i' → matchAtB rest j = false := by
        intro j hj
        rw [← matchAtB_shift c rest j]
        exact hfirst (j + 1) (Nat.succ_lt_succ hj)
      exact ih i' hm' hfirst'

/-- Claim C9: port extraction returns the decimal number captured by the
first occurrence of the inspect-brk fragment (the literal followed by one or
more digits, captured greedily) when one is present, and the default port
9229 for every command string not containing that fragment. -/
theorem extractPort_first_match_or_default (cmd : String) :
    ((∀ i, i < cmd.toList.length → matchAtB cmd.toList i = false) →
      extractPort cmd = 9229) ∧
    (∀ i, matchAtB cmd.toList i = true →
      (∀ j, j < i → matchAtB cmd.toList j = false) →
      extractPort cmd = digitsToNat
        (((cmd.toList.drop i).drop inspectBrkPat.length).takeWhile
          Char.isDigit)) := by
  constructor
  · intro h
    unfold extractPort
    rw [inspectScan_eq_none cmd.toList h]
  · intro i hm hfirst
    unfold extractPort
    rw [inspectScan_first cmd.toList i hm hfirst]

/-- Witness for C9: a command without the fragment yields 9229, one with the
fragment at position 5 yields the captured port 9230. -/
theorem extractPort_first_match_or_default_witness :
    extractPort "node app.js" = 9229 ∧
    extractPort "node --inspect-brk=9230 app.js" = 9230 := by
  constructor
  · exact (extractPort_first_match_or_default "node app.js").1 (by decide)
  · have h := (extractPort_first_match_or_default
      "node --inspect-brk=9230 app.js").2 5 (by decide) (by decide)
    rw [h]
    decide

/-! ## Cleanup (src/debug-tool.ts lines 56-61 and 462-479) -/

/-- The child process observables `cleanup` inspects: the killed flag and the
exit and signal codes. -/
structure ChildState where
  killed : Bool
  exitCode : Option Int
  signalCode : Option String

/-- Observable actions of `cleanup`: sending SIGKILL to the child and closing
the debug client. -/
inductive CleanupAction where
  | killSIGKILL
  | clientClose
deriving DecidableEq

/-- `cleanup` (src/debug-tool.ts 462-479): SIGKILL the child when it is not
already killed and has neither an exit code nor a signal code, then close the
client when one is present, swallowing any close failure (the catch block
takes no action, so `closeFails` does not influence the result). -/
def cleanup (child : ChildState) (clientPresent : Bool) (_closeFails : Bool) :
    ChildState × List CleanupAction :=
  let killNeeded :=
    ¬child.killed ∧ child.exitCode = none ∧ child.signalCode = none
  let child1 := if killNeeded then { child with killed := true } else child
  let a1 : List CleanupAction :=
    if killNeeded then [CleanupAction.killSIGKILL] else []
  let a2 : List CleanupAction :=
    if clientPresent then [CleanupAction.clientClose] else []
  (child1, a1 ++ a2)

/-- The try/finally around `runDebugSession` in `debugScript`
(src/debug-tool.ts 56-61): whatever the session body does — return a
response or throw — the finally block runs `cleanup` and the outcome passes
through unchanged. -/
def debugScriptFinally (outcome : Except String DebugScriptResponse)
    (child : ChildState) (clientPresent : Bool) (closeFails : Bool) :
    Except String DebugScriptResponse × ChildState × List CleanupAction :=
  let r := cleanup child clientPresent closeFails
  (outcome, r.1, r.2)

/-- Claim C10: after the debug session concludes — Completed, Errored or
thrown — cleanup always runs: the outcome passes through unchanged, the
child is SIGKILLed exactly when it is unkilled with no exit or signal code,
afterwards the child is killed or already has an exit or signal code (it
never outlives the tool call), the client is closed whenever present, and a
close failure changes nothing. -/
theorem cleanup_always_runs (outcome : Except String DebugScriptResponse)
    (child : ChildState) (clientPresent : Bool) (closeFails : Bool) :
    (debugScriptFinally outcome child clientPresent closeFails).1 = outcome ∧
    ((debugScriptFinally outcome child clientPresent closeFails).2.1.killed
        = true ∨
      (debugScriptFinally outcome child clientPresent closeFails).2.1.exitCode
        ≠ none ∨
      (debugScriptFinally outcome child clientPresent
        closeFails).2.1.signalCode ≠ none) ∧
    ((child.killed = false ∧ child.exitCode = none ∧ child.signalCode = none) →
      CleanupAction.killSIGKILL ∈
        (debugScriptFinally outcome child clientPresent closeFails).2.2) ∧
    ((child.killed = true ∨ child.exitCode ≠ none ∨ child.signalCode ≠ none) →
      CleanupAction.killSIGKILL ∉
        (debugScriptFinally outcome child clientPresent closeFails).2.2) ∧
    (clientPresent = true →
      CleanupAction.clientClose ∈
        (debugScriptFinally outcome child clientPresent closeFails).2.2) ∧
    debugScriptFinally outcome child clientPresent true
      = debugScriptFinally outcome child clientPresent false := by
  refine ⟨rfl, ?_, ?_, ?_, ?_, rfl⟩
  · by_cases hkn : ¬child.killed = true ∧ child.exitCode = none ∧
        child.signalCode = none
    · left
      simp [debugScriptFinally, cleanup, hkn]
    · rcases Decidable.not_and_iff_or_not.mp hkn with hk | h23
      · left
        have hk' : child.killed = true := by
          cases hh : child.killed
          · exact absurd hh (by simpa using hk)
          · rfl
        simp [debugScriptFinally, cleanup, hkn, hk']
      · rcases Decidable.not_and_iff_or_not.mp h23 with h2 | h3
        · right; left
          simp [debugScriptFinally, cleanup, hkn, h2]
        · right; right
          simp [debugScriptFinally, cleanup, hkn, h3]
  · rintro ⟨h1, h2, h3⟩
    simp [debugScriptFinally, cleanup, h1, h2, h3]
  · intro h
    have hkn : ¬(¬child.killed = true ∧ child.exitCode = none ∧
        child.signalCode = none) := by
      rintro ⟨hk, h2, h3⟩
      rcases h with h | h | h
      · exact hk h
      · exact h h2
      · exact h h3
    cases hcp : clientPresent <;>
    · simp only [debugScriptFinally, cleanup, hcp]
      rw [if_neg hkn]
      simp
  · intro h
    by_cases hkn : ¬child.killed = true ∧ child.exitCode = none ∧
        child.signalCode = none <;>
      simp [debugScriptFinally, cleanup, hkn, h]

/-- Witness for C10: a live child with a present client is SIGKILLed and the
client is closed. -/
theorem cleanup_always_runs_witness :
    CleanupAction.killSIGKILL ∈
      (debugScriptFinally (Except.ok (SessionResultSerializer.success []))
        { killed := false, exitCode := none, signalCode := none }
        true false).2.2 ∧
    CleanupAction.clientClose ∈
      (debugScriptFinally (Except.ok (SessionResultSerializer.success []))
        { killed := false, exitCode := none, signalCode := none }
        true false).2.2 := by
  refine ⟨?_, ?_⟩
  · exact (cleanup_always_runs (Except.ok (SessionResultSerializer.success []))
      { killed := false, exitCode := none, signalCode := none }
      true false).2.2.1 ⟨rfl, rfl, rfl⟩
  · exact (cleanup_always_runs (Except.ok (SessionResultSerializer.success []))
      { killed := false, exitCode := none, signalCode := none }
      true false).2.2.2.2.1 rfl

end DebugMcp
